import Mathlib

/-!
Shallow embedding of the `go-ws` WebSocket server (package `ws`) and proofs
about its frame codec, read/write paths, close handshake and upgrade
handshake.  Bytes are modelled as `Nat` (always < 256 on real wires; the
claims carry explicit bounds where the arithmetic depends on it), byte
slices as `List Nat`, and the connection as an explicit record threaded
through each operation.  Go's `panic` is modelled by `Option`/a dedicated
result constructor, Go's `error` returns by explicit error values.

Source of authority: `src/ws/conn.go` (frame codec and connection) and the
upgrader file (`Upgrader`, `checkHandshake`, `generateAcceptKey`).
-/

namespace GoWs

/-! ## Frame constants (src/ws/conn.go lines 13-38) -/

def bitFin : Nat := 128
def bitRsv1 : Nat := 64
def bitRsv2 : Nat := 32
def bitRsv3 : Nat := 16
def bitMask : Nat := 128

def OpText : Nat := 1
def OpBinary : Nat := 2
def OpClose : Nat := 8
def OpPing : Nat := 9
def OpPong : Nat := 10

def CloseStatusNoStatusReceived : Nat := 1005
def CloseStatusProtocolError : Nat := 1002

/-! ## applyMask (src/ws/conn.go lines 48-56)

Go iterates `for i, b := range b { transformed = append(transformed, b ^ maskingKey[i%4]) }`.
`maskingKey[i%4]` panics in Go when the key is shorter than the index; here
`List.getD` with default 0 is used, which agrees with the source whenever
`i % 4 < maskingKey.length` — in particular for every 4-byte key. -/

def applyMaskFrom (maskingKey : List Nat) : Nat → List Nat → List Nat
  | _, [] => []
  | i, x :: xs => (x ^^^ maskingKey.getD (i % 4) 0) :: applyMaskFrom maskingKey (i + 1) xs

def applyMask (b maskingKey : List Nat) : List Nat :=
  applyMaskFrom maskingKey 0 b

/-! ## frame (src/ws/conn.go lines 60-69) -/

structure Frame where
  fin : Bool
  rsv1 : Bool
  rsv2 : Bool
  rsv3 : Bool
  opcode : Nat
  mask : Bool
  payloadLength : Nat
  payload : List Nat
deriving DecidableEq, Repr

/-! ## validate (src/ws/conn.go lines 73-96)

The source accumulates error strings and returns a wrapped error when the
list is nonempty; the embedding returns the list (Go returns `nil` exactly
when this list is `[]`).  Message strings keep the source wording with the
Go quoting characters dropped. -/

def validateErrors (f : Frame) : List String :=
  if f.opcode == OpClose || f.opcode == OpPing || f.opcode == OpPong then
    (if f.payloadLength > 125 then ["control frame payload length must be <= 125"] else [])
      ++ (if !f.fin then ["control frame FIN not set to 1"] else [])
  else if f.opcode == OpText || f.opcode == OpBinary then
    []
  else
    ["unknown opcode"]

/-! ## Conn (src/ws/conn.go lines 99-118)

The `net.Conn` / `bufio.Reader` pair is modelled by two byte lists:
`input` is the unread client byte stream, `output` collects every byte the
server writes.  Buffer sizes only size Go's buffers and do not change the
byte-level semantics, so they are dropped from the state. -/

structure Conn where
  compression : Bool
  input : List Nat
  output : List Nat
deriving DecidableEq, Repr

/-- newConn (src/ws/conn.go lines 107-113): the struct literal sets `conn`,
`reader` and `writeBuf` only, so `compression` is Go's zero value `false`. -/
def newConn (input : List Nat) (readBufferSize writeBufferSize : Nat) : Conn :=
  { compression := false, input := input, output := [] }

/-- Close (src/ws/conn.go lines 116-118) closes the underlying TCP
connection (`c.conn.Close()`); it writes no `Conn` field. -/
def Conn.close (c : Conn) : Conn := c

/-! ## compress (src/ws/compression.go lines 35-54)

The DEFLATE stream produced by `flate.NewWriter` + `Write` + `Flush` +
`Close` is external library behaviour, modelled by the `deflate` parameter.
The source then strips the last 4 bytes (`compressedBytes[:len-4]`). -/

def compress (deflate : List Nat → List Nat) (m : List Nat) : List Nat :=
  let compressedBytes := deflate m
  compressedBytes.take (compressedBytes.length - 4)

/-! ## WriteMessage (src/ws/conn.go lines 165-201)

`binary.BigEndian.PutUint16(frame, v)` writes `byte(v>>8)` to `frame[0]`
and `byte(v)` to `frame[1]` — at offset 0 of the 2-byte header, overwriting
the FIN/opcode byte and the `126` marker.  `PutUint64` on the same 2-byte
slice checks `_ = b[7]` and panics, modelled as `none`.  The successful
`c.conn.Write(frame)` appends the frame to `output`. -/

def putUint16BE (b : List Nat) (v : Nat) : List Nat :=
  match b with
  | _ :: _ :: rest => (v % 65536 / 256) :: (v % 256) :: rest
  | _ => b

def writeFrameBytes (compression : Bool) (deflate : List Nat → List Nat)
    (opcode : Nat) (m0 : List Nat) : Option (List Nat) :=
  let b0 := (0 ||| opcode) ||| bitFin
  let b0 := if compression then b0 ||| bitRsv1 else b0
  let m := if compression then compress deflate m0 else m0
  let payloadLen := m.length
  if payloadLen < 126 then
    some ([b0, 0 ||| payloadLen % 256] ++ m)
  else if payloadLen ≤ 65535 then
    some (putUint16BE [b0, 0 ||| 126] (payloadLen % 65536) ++ m)
  else
    none

def WriteMessage (deflate : List Nat → List Nat) (c : Conn)
    (opcode : Nat) (m : List Nat) : Option Conn :=
  match writeFrameBytes c.compression deflate opcode m with
  | some frame => some { c with output := c.output ++ frame }
  | none => none

/-! ## handleClose (src/ws/conn.go lines 313-325)

`binary.BigEndian.AppendUint16(buf, v)` appends `byte(v>>8), byte(v)`.
The `reason` argument is accepted and never used, exactly as in the
source. -/

def handleClose (deflate : List Nat → List Nat) (c : Conn)
    (statusCode : Nat) (reason : List Nat) : Option Conn :=
  let buf : List Nat :=
    if statusCode ≠ CloseStatusNoStatusReceived then
      [statusCode % 65536 / 256, statusCode % 256]
    else []
  WriteMessage deflate c OpClose buf

/-! ## advanceBytes (src/ws/conn.go lines 204-212)

`io.ReadFull` returns exactly `n` bytes or an error; partial reads
surface as errors, modelled by `none`. -/

def advanceBytes (c : Conn) (n : Nat) : Option (List Nat × Conn) :=
  if n ≤ c.input.length then
    some (c.input.take n, { c with input := c.input.drop n })
  else none

/-- Error values surfaced by the read path.  `readFailed` stands for any
`io.ReadFull` failure, `notMasked` and `validationFailed` for the two
`fmt.Errorf` returns of `nextFrame` (the latter wraps the stale `err`
variable, which is `nil` at that point, but is a non-nil error either
way), `connectionClosed` for `ErrConnectionClosed`, `decompressFailed`
for a `decompress` failure inside `ReadMessage`. -/
inductive WsErr where
  | readFailed
  | notMasked
  | validationFailed
  | connectionClosed
  | decompressFailed
deriving DecidableEq, Repr

/-- Result of one `nextFrame` call (src/ws/conn.go lines 217-309):
`frame` is Go's `(f, nil)`, `skip` is `(nil, nil)` (intercepted control
frame), `err` is `(nil, e)` with `e` non-nil, `panicked` is a Go runtime
panic (out-of-bounds slice access). -/
inductive NextResult where
  | frame (c : Conn) (f : Frame)
  | skip (c : Conn)
  | err (c : Conn) (e : WsErr)
  | panicked
deriving DecidableEq, Repr

/-- readUint16BE models `binary.BigEndian.Uint16`, which checks `_ = b[1]`
and panics (`none`) on a slice shorter than 2. -/
def readUint16BE : List Nat → Option Nat
  | b0 :: b1 :: _ => some (b0 % 256 * 256 + b1 % 256)
  | _ => none

/-- beUint64 models `binary.BigEndian.Uint64` on an 8-byte slice. -/
def beUint64 (b : List Nat) : Nat :=
  b.foldl (fun acc x => acc * 256 + x % 256) 0

/-- readFrame is the pure decoding prefix of `nextFrame`
(src/ws/conn.go lines 218-275): header byte pair, mask check, extended
payload length, masking key, masked payload, unmask. -/
def readFrame (c : Conn) : Except (Conn × WsErr) (Conn × Frame) :=
  match advanceBytes c 2 with
  | none => .error (c, .readFailed)
  | some (b, c) =>
    let b0 := b.getD 0 0
    let b1 := b.getD 1 0
    let fin := b0 &&& bitFin != 0
    let rsv1 := b0 &&& bitRsv1 != 0
    let rsv2 := b0 &&& bitRsv2 != 0
    let rsv3 := b0 &&& bitRsv3 != 0
    let opcode := b0 &&& 15
    let mask := b1 &&& bitMask != 0
    if !mask then .error (c, .notMasked)
    else
      match (if b1 &&& 127 == 126 then
               (advanceBytes c 2).map (fun x => (x.1.getD 0 0 * 256 + x.1.getD 1 0, x.2))
             else if b1 &&& 127 == 127 then
               (advanceBytes c 8).map (fun x => (beUint64 x.1, x.2))
             else
               some (b1 &&& 127, c)) with
      | none => .error (c, .readFailed)
      | some (payloadLength, c) =>
        match advanceBytes c 4 with
        | none => .error (c, .readFailed)
        | some (maskingKey, c) =>
          match advanceBytes c payloadLength with
          | none => .error (c, .readFailed)
          | some (maskedPayload, c) =>
            .ok (c, { fin := fin, rsv1 := rsv1, rsv2 := rsv2, rsv3 := rsv3,
                      opcode := opcode, mask := mask,
                      payloadLength := payloadLength,
                      payload := applyMask maskedPayload maskingKey })

/-- nextFrame (src/ws/conn.go lines 217-309): decode a frame, validate it,
intercept control frames.  Ping answers with a Pong carrying the same
payload; Close extracts the status code (big-endian 16-bit read that
panics on a 1-byte body) and the reason (`string(f.payload[2:])`, kept as
bytes), calls `handleClose` and surfaces `ErrConnectionClosed`; Pong falls
through the switch and yields `(nil, nil)`. -/
def nextFrame (deflate : List Nat → List Nat) (c : Conn) : NextResult :=
  match readFrame c with
  | .error (c, e) => .err c e
  | .ok (c, f) =>
    if validateErrors f ≠ [] then .err c .validationFailed
    else if f.opcode != OpText && f.opcode != OpBinary then
      if f.opcode == OpPing then
        match WriteMessage deflate c OpPong f.payload with
        | some c => .skip c
        | none => .panicked
      else if f.opcode == OpClose then
        if f.payloadLength > 0 then
          match readUint16BE f.payload with
          | none => .panicked
          | some statusCode =>
            match handleClose deflate c statusCode (f.payload.drop 2) with
            | some c => .err c .connectionClosed
            | none => .panicked
        else
          match handleClose deflate c CloseStatusNoStatusReceived [] with
          | some c => .err c .connectionClosed
          | none => .panicked
      else .skip c
    else .frame c f

/-- Result of `ReadMessage` (src/ws/conn.go lines 121-162): `msg` is
`(buf, nil)`, `nilNil` is the repeated-RSV1 `return nil, err` with a `nil`
`err` — i.e. a nil payload together with a nil error —, `err` a non-nil
error, `panicked` a Go panic.  `fuelOut` is an artifact of the fuel-indexed
loop below and is unreachable for the fuel `ReadMessage` supplies. -/
inductive ReadResult where
  | msg (c : Conn) (payload : List Nat)
  | nilNil (c : Conn)
  | err (c : Conn) (e : WsErr)
  | panicked
  | fuelOut (c : Conn)
deriving DecidableEq, Repr

/-- readLoop is the `for` loop of `ReadMessage` together with the final
decompression step, indexed by fuel; every iteration consumes at least 6
bytes of `input`, so `input.length + 1` fuel never runs out. -/
def readLoop (deflate : List Nat → List Nat) (inflate : List Nat → Option (List Nat)) :
    Nat → Conn → Bool → List Nat → ReadResult
  | 0, c, _, _ => .fuelOut c
  | fuel + 1, c, compressed, buf =>
    match nextFrame deflate c with
    | .err c e => .err c e
    | .panicked => .panicked
    | .skip c => readLoop deflate inflate fuel c compressed buf
    | .frame c f =>
      if f.rsv1 && compressed then
        .nilNil c
      else
        let compressed := compressed || f.rsv1
        if !f.fin then
          readLoop deflate inflate fuel c compressed (buf ++ f.payload)
        else
          let buf := buf ++ f.payload
          if !compressed then .msg c buf
          else
            match inflate buf with
            | some decompressed => .msg c decompressed
            | none => .err c .decompressFailed

/-- ReadMessage (src/ws/conn.go lines 121-162).  `decompress`
(src/ws/compression.go lines 15-31) feeds the buffer plus the RFC 7692
tail to a `flate` reader, external behaviour modelled by `inflate`. -/
def ReadMessage (deflate : List Nat → List Nat)
    (inflate : List Nat → Option (List Nat)) (c : Conn) : ReadResult :=
  readLoop deflate inflate (c.input.length + 1) c false []

/-! ## Client-side frame encoder (test harness)

This is not part of the repository: it builds the byte sequence a
conforming client puts on the wire for a single masked frame (RFC 6455
section 5.2 with a 7-bit length, so `payload.length ≤ 125`), used to state
properties about the server's decoder. -/

def clientFrame (fin rsv1 : Bool) (opcode : Nat) (key payload : List Nat) : List Nat :=
  ((if fin then 128 else 0) + (if rsv1 then 64 else 0) + opcode)
    :: (128 + payload.length)
    :: (key ++ applyMask payload key)

/-! ## SHA-1 and base64 (Go standard library, FIPS 180-4 / RFC 4648)

`generateAcceptKey` calls `crypto/sha1` and `encoding/base64`; both are
embedded executably so the accept key can be evaluated in the kernel.
32-bit words are `Nat` reduced modulo `2 ^ 32` at every operation that can
overflow. -/

def rotl32 (x n : Nat) : Nat :=
  ((x <<< n) ||| (x >>> (32 - n))) % 4294967296

/-- beBytes w v is the big-endian `w`-byte encoding of `v`. -/
def beBytes (w v : Nat) : List Nat :=
  (List.range w).map (fun i => v / 256 ^ (w - 1 - i) % 256)

/-- sha1Pad appends the 0x80 byte, zero padding to 56 mod 64, and the
64-bit big-endian bit length. -/
def sha1Pad (msg : List Nat) : List Nat :=
  msg ++ [128] ++ List.replicate ((64 + 56 - (msg.length + 1) % 64) % 64) 0
      ++ beBytes 8 (msg.length * 8)

/-- toWords packs consecutive byte quadruples into big-endian 32-bit words. -/
def toWords : List Nat → List Nat
  | b0 :: b1 :: b2 :: b3 :: rest =>
      (((b0 * 256 + b1) * 256 + b2) * 256 + b3) :: toWords rest
  | _ => []

/-- sha1Schedule extends the 16 block words to the 80-entry message
schedule: `W t = rotl1 (W (t-3) xor W (t-8) xor W (t-14) xor W (t-16))`. -/
def sha1Schedule (w16 : List Nat) : List Nat :=
  (List.range 64).foldl
    (fun w _ =>
      w ++ [rotl32 (((w.getD (w.length - 3) 0) ^^^ (w.getD (w.length - 8) 0))
              ^^^ ((w.getD (w.length - 14) 0) ^^^ (w.getD (w.length - 16) 0))) 1])
    w16

def sha1F (t b c d : Nat) : Nat :=
  if t < 20 then (b &&& c) ||| ((b ^^^ 4294967295) &&& d)
  else if t < 40 then (b ^^^ c) ^^^ d
  else if t < 60 then ((b &&& c) ||| (b &&& d)) ||| (c &&& d)
  else (b ^^^ c) ^^^ d

def sha1K (t : Nat) : Nat :=
  if t < 20 then 1518500249
  else if t < 40 then 1859775393
  else if t < 60 then 2400959708
  else 3395469782

/-- sha1Block runs the 80-round compression function on one 64-byte block. -/
def sha1Block (h : List Nat) (block : List Nat) : List Nat :=
  let w := sha1Schedule (toWords block)
  let st := (List.range 80).foldl
    (fun (st : Nat × Nat × Nat × Nat × Nat) t =>
      let a := st.1
      let b := st.2.1
      let c := st.2.2.1
      let d := st.2.2.2.1
      let e := st.2.2.2.2
      let temp := (rotl32 a 5 + sha1F t b c d + e + sha1K t + w.getD t 0) % 4294967296
      (temp, a, rotl32 b 30, c, d))
    (h.getD 0 0, h.getD 1 0, h.getD 2 0, h.getD 3 0, h.getD 4 0)
  [(h.getD 0 0 + st.1) % 4294967296,
   (h.getD 1 0 + st.2.1) % 4294967296,
   (h.getD 2 0 + st.2.2.1) % 4294967296,
   (h.getD 3 0 + st.2.2.2.1) % 4294967296,
   (h.getD 4 0 + st.2.2.2.2) % 4294967296]

/-- sha1 digests a byte sequence to its 20-byte SHA-1 hash. -/
def sha1 (msg : List Nat) : List Nat :=
  let padded := sha1Pad msg
  let hh := (List.range (padded.length / 64)).foldl
    (fun h i => sha1Block h ((padded.drop (64 * i)).take 64))
    [1732584193, 4023233417, 2562383102, 271733878, 3285377520]
  (hh.map (beBytes 4)).flatten

def base64Alphabet : List Char :=
  "ABCDEFGHIJKLMNOPQRSTUVWXYZabcdefghijklmnopqrstuvwxyz0123456789+/".data

def b64Char (n : Nat) : Char := base64Alphabet.getD n 'A'

/-- base64Encode is RFC 4648 standard encoding with `=` padding, as
`encoding/base64` `StdEncoding` produces. -/
def base64Encode : List Nat → String
  | [] => ""
  | [b0] =>
      String.mk [b64Char (b0 / 4), b64Char (b0 % 4 * 16)] ++ "=="
  | [b0, b1] =>
      String.mk [b64Char (b0 / 4), b64Char (b0 % 4 * 16 + b1 / 16),
                 b64Char (b1 % 16 * 4)] ++ "="
  | b0 :: b1 :: b2 :: rest =>
      String.mk [b64Char (b0 / 4), b64Char (b0 % 4 * 16 + b1 / 16),
                 b64Char (b1 % 16 * 4 + b2 / 64), b64Char (b2 % 64)]
        ++ base64Encode rest

/-- strBytes gives the bytes `io.WriteString` writes; the handshake keys
and the GUID are ASCII, for which UTF-8 bytes and code points coincide. -/
def strBytes (s : String) : List Nat := s.data.map Char.toNat

/-- generateAcceptKey (upgrader, lines 137-143): base64 of the SHA-1 of the
client key concatenated with the fixed GUID. -/
def generateAcceptKey (key : String) : String :=
  base64Encode (sha1 (strBytes (key ++ "258EAFA5-E914-47DA-95CA-C5AB0DC85B11")))

/-! ## Upgrade handshake (upgrader file, lines 29-157)

Requests are modelled by the method and a header list; `Header.Get`
returns the empty string for a missing header.  `http.Error` (inside
`handleError`) writes the status text with its two fixed headers and never
a `Sec-WebSocket-Version` header. -/

structure Request where
  method : String
  headers : List (String × String)
deriving DecidableEq, Repr

def headerGet (r : Request) (h : String) : String :=
  ((r.headers.find? (fun p => p.1 == h)).map Prod.snd).getD ""

/-- checkForHeader (upgrader, lines 146-152); the message keeps the source
text with the Go quoting characters dropped. -/
def checkForHeader (r : Request) (h v : String) : Option String :=
  if headerGet r h == v then none
  else some (h ++ " is not set to " ++ v ++ ": failed to upgrade to the WebSocket protocol")

/-- checkHandshake (upgrader, lines 116-134): method must be GET (else
405), then the Connection, Upgrade and Sec-WebSocket-Version headers are
checked in order, each failure reported with status 400
(`http.StatusBadRequest`). -/
def checkHandshake (r : Request) : Option (String × Nat) :=
  if r.method != "GET" then
    some ("handshake must be a GET request: failed to upgrade to the WebSocket protocol", 405)
  else
    match checkForHeader r "Connection" "Upgrade" with
    | some e => some (e, 400)
    | none =>
      match checkForHeader r "Upgrade" "websocket" with
      | some e => some (e, 400)
      | none =>
        match checkForHeader r "Sec-WebSocket-Version" "13" with
        | some e => some (e, 400)
        | none => none

structure HttpResponse where
  status : Nat
  headers : List (String × String)
  body : String
deriving DecidableEq, Repr

def statusText (s : Nat) : String :=
  if s == 400 then "Bad Request"
  else if s == 403 then "Forbidden"
  else if s == 405 then "Method Not Allowed"
  else if s == 426 then "Upgrade Required"
  else if s == 500 then "Internal Server Error"
  else ""

/-- handleError (upgrader, lines 155-157) calls `http.Error`, which sends
the status code, its two fixed headers and the status text as body. -/
def handleError (s : Nat) : HttpResponse :=
  { status := s,
    headers := [("Content-Type", "text/plain; charset=utf-8"),
                ("X-Content-Type-Options", "nosniff")],
    body := statusText s ++ "\n" }

/-! ## Helper lemmas -/

lemma applyMaskFrom_length (k : List Nat) (i : Nat) (b : List Nat) :
    (applyMaskFrom k i b).length = b.length := by
  induction b generalizing i with
  | nil => rfl
  | cons x xs ih => simp [applyMaskFrom, ih]

lemma applyMask_length (b k : List Nat) : (applyMask b k).length = b.length :=
  applyMaskFrom_length k 0 b

lemma applyMaskFrom_applyMaskFrom (k : List Nat) (i : Nat) (b : List Nat) :
    applyMaskFrom k i (applyMaskFrom k i b) = b := by
  induction b generalizing i with
  | nil => rfl
  | cons x xs ih => simp [applyMaskFrom, Nat.xor_cancel_right, ih]

lemma applyMask_applyMask (b k : List Nat) : applyMask (applyMask b k) k = b :=
  applyMaskFrom_applyMaskFrom k 0 b

lemma and_two_pow_div (a k : Nat) : a &&& 2 ^ k = a / 2 ^ k % 2 * 2 ^ k := by
  rw [Nat.and_two_pow, Nat.testBit_to_div_mod]
  rcases Nat.mod_two_eq_zero_or_one (a / 2 ^ k) with h | h <;> simp [h]

lemma and128 (a : Nat) : a &&& 128 = a / 128 % 2 * 128 := by
  have h := and_two_pow_div a 7; norm_num at h; exact h

lemma and64 (a : Nat) : a &&& 64 = a / 64 % 2 * 64 := by
  have h := and_two_pow_div a 6; norm_num at h; exact h

lemma and32 (a : Nat) : a &&& 32 = a / 32 % 2 * 32 := by
  have h := and_two_pow_div a 5; norm_num at h; exact h

lemma and16 (a : Nat) : a &&& 16 = a / 16 % 2 * 16 := by
  have h := and_two_pow_div a 4; norm_num at h; exact h

lemma and15 (a : Nat) : a &&& 15 = a % 16 := by
  have h := Nat.and_pow_two_sub_one_eq_mod a 4; norm_num at h; exact h

lemma and127 (a : Nat) : a &&& 127 = a % 128 := by
  have h := Nat.and_pow_two_sub_one_eq_mod a 7; norm_num at h; exact h

lemma advanceBytes_append (comp : Bool) (l rest out : List Nat) (n : Nat)
    (h : l.length = n) :
    advanceBytes ⟨comp, l ++ rest, out⟩ n = some (l, ⟨comp, rest, out⟩) := by
  subst h
  simp [advanceBytes, List.take_left, List.drop_left]

lemma advanceBytes_two (comp : Bool) (a b : Nat) (tail out : List Nat) :
    advanceBytes ⟨comp, a :: b :: tail, out⟩ 2 = some ([a, b], ⟨comp, tail, out⟩) := by
  unfold advanceBytes
  rw [if_pos (by simp)]
  rfl

lemma readFrame_clientFrame (comp fin rsv1 : Bool) (opcode : Nat)
    (key p rest out : List Nat)
    (hkey : key.length = 4) (hp : p.length ≤ 125) (hop : opcode < 16) :
    readFrame ⟨comp, clientFrame fin rsv1 opcode key p ++ rest, out⟩ =
      .ok (⟨comp, rest, out⟩,
           { fin := fin, rsv1 := rsv1, rsv2 := false, rsv3 := false,
             opcode := opcode, mask := true, payloadLength := p.length, payload := p }) := by
  have hB : clientFrame fin rsv1 opcode key p ++ rest =
      ((if fin then 128 else 0) + (if rsv1 then 64 else 0) + opcode)
        :: (128 + p.length) :: (key ++ (applyMask p key ++ rest)) := by
    simp [clientFrame]
  have hfin : ((((if fin = true then (128:Nat) else 0) + (if rsv1 = true then 64 else 0) + opcode)) &&& bitFin != 0) = fin := by
    cases fin <;> cases rsv1 <;> simp [bitFin, and128] <;> omega
  have hrsv1 : ((((if fin = true then (128:Nat) else 0) + (if rsv1 = true then 64 else 0) + opcode)) &&& bitRsv1 != 0) = rsv1 := by
    cases fin <;> cases rsv1 <;> simp [bitRsv1, and64] <;> omega
  have hrsv2 : ((((if fin = true then (128:Nat) else 0) + (if rsv1 = true then 64 else 0) + opcode)) &&& bitRsv2 != 0) = false := by
    cases fin <;> cases rsv1 <;> simp [bitRsv2, and32] <;> omega
  have hrsv3 : ((((if fin = true then (128:Nat) else 0) + (if rsv1 = true then 64 else 0) + opcode)) &&& bitRsv3 != 0) = false := by
    cases fin <;> cases rsv1 <;> simp [bitRsv3, and16] <;> omega
  have hopc : ((((if fin = true then (128:Nat) else 0) + (if rsv1 = true then 64 else 0) + opcode)) &&& 15) = opcode := by
    cases fin <;> cases rsv1 <;> simp [and15] <;> omega
  have hmask : (((128 + p.length) : Nat) &&& bitMask != 0) = true := by
    simp [bitMask, and128]
    omega
  have hlen : ((128 + p.length : Nat) &&& 127) = p.length := by
    rw [and127]; omega
  have h126 : ((p.length : Nat) == 126) = false := by
    simp; omega
  have h127 : ((p.length : Nat) == 127) = false := by
    simp; omega
  rw [hB]
  unfold readFrame
  rw [advanceBytes_two]
  dsimp only []
  rw [show ([((if fin = true then (128:Nat) else 0) + (if rsv1 = true then 64 else 0) + opcode), (128 + p.length)].getD 0 0) = ((if fin = true then (128:Nat) else 0) + (if rsv1 = true then 64 else 0) + opcode) from rfl]
  rw [show ([((if fin = true then (128:Nat) else 0) + (if rsv1 = true then 64 else 0) + opcode), (128 + p.length)].getD 1 0) = (128 + p.length) from rfl]
  rw [hmask, hlen, h126, h127]
  rw [if_neg (by decide)]
  rw [if_neg (by decide)]
  rw [if_neg (by decide)]
  dsimp only []
  rw [advanceBytes_append comp key (applyMask p key ++ rest) out 4 hkey]
  dsimp only []
  rw [advanceBytes_append comp (applyMask p key) rest out p.length (applyMask_length p key)]
  dsimp only []
  rw [hfin, hrsv1, hrsv2, hrsv3, hopc, applyMask_applyMask]

lemma nextFrame_clientFrame_data (deflate : List Nat → List Nat)
    (comp fin rsv1 : Bool) (opcode : Nat) (key p rest out : List Nat)
    (hkey : key.length = 4) (hp : p.length ≤ 125)
    (hop : opcode = OpText ∨ opcode = OpBinary) :
    nextFrame deflate ⟨comp, clientFrame fin rsv1 opcode key p ++ rest, out⟩ =
      .frame ⟨comp, rest, out⟩
        { fin := fin, rsv1 := rsv1, rsv2 := false, rsv3 := false,
          opcode := opcode, mask := true, payloadLength := p.length, payload := p } := by
  have hop16 : opcode < 16 := by rcases hop with h | h <;> simp [h, OpText, OpBinary]
  unfold nextFrame
  rw [readFrame_clientFrame comp fin rsv1 opcode key p rest out hkey hp hop16]
  rcases hop with h | h <;> subst h <;>
    simp [validateErrors, OpText, OpBinary, OpClose, OpPing, OpPong]

lemma nextFrame_clientFrame_close_empty (deflate : List Nat → List Nat)
    (rsv1 : Bool) (key rest out : List Nat) (hkey : key.length = 4) :
    nextFrame deflate ⟨false, clientFrame true rsv1 OpClose key [] ++ rest, out⟩ =
      .err ⟨false, rest, out ++ [136, 0]⟩ .connectionClosed := by
  unfold nextFrame
  rw [readFrame_clientFrame false true rsv1 OpClose key [] rest out hkey (by simp) (by simp [OpClose])]
  simp [validateErrors, OpText, OpBinary, OpClose, OpPing, OpPong, handleClose,
        CloseStatusNoStatusReceived, WriteMessage, writeFrameBytes, bitFin]

lemma nextFrame_clientFrame_close (deflate : List Nat → List Nat)
    (rsv1 : Bool) (p0 p1 : Nat) (rd key rest out : List Nat)
    (hkey : key.length = 4) (hlen : rd.length ≤ 123)
    (h0 : p0 < 256) (h1 : p1 < 256) (hcode : p0 * 256 + p1 ≠ 1005) :
    nextFrame deflate ⟨false, clientFrame true rsv1 OpClose key (p0 :: p1 :: rd) ++ rest, out⟩ =
      .err ⟨false, rest, out ++ [136, 2, p0, p1]⟩ .connectionClosed := by
  unfold nextFrame
  rw [readFrame_clientFrame false true rsv1 OpClose key (p0 :: p1 :: rd) rest out hkey
        (by simp; omega) (by simp [OpClose])]
  have hsc : p0 % 256 * 256 + p1 % 256 = p0 * 256 + p1 := by omega
  have hdiv : (p0 * 256 + p1) % 65536 / 256 = p0 := by omega
  have hmod : (p0 * 256 + p1) % 256 = p1 := by omega
  simp [validateErrors, OpText, OpBinary, OpClose, OpPing, OpPong, readUint16BE,
        hsc, handleClose, CloseStatusNoStatusReceived, hcode, hdiv, hmod,
        WriteMessage, writeFrameBytes, bitFin]
  exact hlen

def exceptConn : Except (Conn × WsErr) (Conn × Frame) → Conn
  | .error x => x.1
  | .ok x => x.1

lemma advanceBytes_compression (c : Conn) (n : Nat) (b : List Nat) (c' : Conn)
    (h : advanceBytes c n = some (b, c')) : c'.compression = c.compression := by
  unfold advanceBytes at h
  split at h
  · simp only [Option.some.injEq, Prod.mk.injEq] at h
    rcases h with ⟨-, h⟩
    subst h
    rfl
  · exact absurd h (by simp)

lemma lengthParse_compression (c1 : Conn) (b1 pl : Nat) (c' : Conn)
    (h : (if (b1 &&& 127 == 126) = true then
            Option.map (fun x => (x.1.getD 0 0 * 256 + x.1.getD 1 0, x.2)) (advanceBytes c1 2)
          else if (b1 &&& 127 == 127) = true then
            Option.map (fun x => (beUint64 x.1, x.2)) (advanceBytes c1 8)
          else some (b1 &&& 127, c1)) = some (pl, c')) :
    c'.compression = c1.compression := by
  split at h
  · rcases h3 : advanceBytes c1 2 with _ | ⟨eb, c2⟩ <;> rw [h3] at h <;> simp at h
    rcases h with ⟨-, h⟩
    subst h
    exact advanceBytes_compression c1 2 eb c2 h3
  split at h
  · rcases h3 : advanceBytes c1 8 with _ | ⟨eb, c2⟩ <;> rw [h3] at h <;> simp at h
    rcases h with ⟨-, h⟩
    subst h
    exact advanceBytes_compression c1 8 eb c2 h3
  · simp only [Option.some.injEq, Prod.mk.injEq] at h
    rcases h with ⟨-, h⟩
    subst h
    rfl

lemma readFrame_compression (c : Conn) :
    (exceptConn (readFrame c)).compression = c.compression := by
  unfold readFrame
  rcases h2 : advanceBytes c 2 with _ | ⟨b, c1⟩
  · rfl
  have e1 := advanceBytes_compression c 2 b c1 h2
  dsimp only []
  split
  · exact e1
  split
  · exact e1
  next pl c2 hlp =>
    have e2 : c2.compression = c1.compression :=
      lengthParse_compression c1 (b.getD 1 0) pl c2 hlp
    split
    · exact e2.trans e1
    next mk c3 h4 =>
      have e3 := advanceBytes_compression c2 4 mk c3 h4
      split
      · exact (e3.trans e2).trans e1
      next mp c4 h5 =>
        have e4 := advanceBytes_compression c3 pl mp c4 h5
        exact ((e4.trans e3).trans e2).trans e1

/-- NextResult.compressionOr reads the `compression` field of the connection
carried by a `nextFrame` result, with a default for the panic case. -/
def NextResult.compressionOr : NextResult → Bool → Bool
  | .frame c _, _ => c.compression
  | .skip c, _ => c.compression
  | .err c _, _ => c.compression
  | .panicked, d => d

/-- ReadResult.compressionOr reads the `compression` field of the connection
carried by a `ReadMessage` result, with a default for the panic case. -/
def ReadResult.compressionOr : ReadResult → Bool → Bool
  | .msg c _, _ => c.compression
  | .nilNil c, _ => c.compression
  | .err c _, _ => c.compression
  | .fuelOut c, _ => c.compression
  | .panicked, d => d

lemma WriteMessage_compression (deflate : List Nat → List Nat) (c : Conn)
    (opcode : Nat) (m : List Nat) :
    ((WriteMessage deflate c opcode m).map Conn.compression).getD c.compression
      = c.compression := by
  unfold WriteMessage
  split <;> simp_all

lemma WriteMessage_compression_some (deflate : List Nat → List Nat) (c c' : Conn)
    (opcode : Nat) (m : List Nat) (h : WriteMessage deflate c opcode m = some c') :
    c'.compression = c.compression := by
  have hw := WriteMessage_compression deflate c opcode m
  rw [h] at hw
  simpa using hw

lemma nextFrame_compressionOr (deflate : List Nat → List Nat) (c : Conn) :
    (nextFrame deflate c).compressionOr c.compression = c.compression := by
  have hrf := readFrame_compression c
  unfold nextFrame
  rcases h : readFrame c with ⟨c1, e⟩ | ⟨c1, f⟩ <;> rw [h] at hrf <;>
    simp only [exceptConn] at hrf
  · exact hrf
  dsimp only []
  split
  · exact hrf
  split
  · split
    · rcases hw : WriteMessage deflate c1 OpPong f.payload with _ | c2
      · rfl
      · exact (WriteMessage_compression_some deflate c1 c2 OpPong f.payload hw).trans hrf
    split
    · split
      · split
        · rfl
        next sc hsc =>
          rcases hw : handleClose deflate c1 sc (f.payload.drop 2) with _ | c2
          · rfl
          · exact (WriteMessage_compression_some deflate c1 c2 OpClose _ hw).trans hrf
      · rcases hw : handleClose deflate c1 CloseStatusNoStatusReceived [] with _ | c2
        · rfl
        · exact (WriteMessage_compression_some deflate c1 c2 OpClose _ hw).trans hrf
    · exact hrf
  · exact hrf

lemma readLoop_compressionOr (deflate : List Nat → List Nat)
    (inflate : List Nat → Option (List Nat)) (fuel : Nat) (c : Conn)
    (compressed : Bool) (buf : List Nat) :
    (readLoop deflate inflate fuel c compressed buf).compressionOr c.compression
      = c.compression := by
  induction fuel generalizing c compressed buf with
  | zero => rfl
  | succ n ih =>
    have hnf := nextFrame_compressionOr deflate c
    unfold readLoop
    rcases h : nextFrame deflate c with ⟨c1, f⟩ | c1 | ⟨c1, e⟩ | _ <;> rw [h] at hnf <;>
      simp only [NextResult.compressionOr] at hnf ⊢
    · split
      · exact hnf
      · split
        · have := ih c1 (compressed || f.rsv1) (buf ++ f.payload)
          rw [hnf] at this
          exact this
        · split
          · exact hnf
          · split
            · exact hnf
            · exact hnf
    · have := ih c1 compressed buf
      rw [hnf] at this
      exact this
    · exact hnf
    · rfl


lemma testBit6_of_and64_eq_zero (a : Nat) (h : a &&& 64 = 0) : a.testBit 6 = false := by
  have h6 := Nat.and_two_pow a 6
  norm_num at h6
  rw [h] at h6
  cases htb : a.testBit 6
  · rfl
  · rw [htb] at h6
    simp at h6

lemma or64_and64 (a : Nat) : (a ||| 64) &&& 64 = 64 := by
  have h6 := Nat.and_two_pow (a ||| 64) 6
  rw [Nat.testBit_lor, show Nat.testBit 64 6 = true from rfl] at h6
  norm_num at h6
  exact h6

lemma or_and64_zero (a b : Nat) (ha : a &&& 64 = 0) (hb : b &&& 64 = 0) :
    (a ||| b) &&& 64 = 0 := by
  have h6 := Nat.and_two_pow (a ||| b) 6
  rw [Nat.testBit_lor, testBit6_of_and64_eq_zero a ha, testBit6_of_and64_eq_zero b hb] at h6
  norm_num at h6
  exact h6

lemma clientFrame_length (fin rsv1 : Bool) (opcode : Nat) (key p : List Nat) :
    (clientFrame fin rsv1 opcode key p).length = 2 + key.length + p.length := by
  simp [clientFrame, applyMask_length]
  omega

lemma readLoop_err (deflate : List Nat → List Nat) (inflate : List Nat → Option (List Nat))
    (fuel : Nat) (c c' : Conn) (e : WsErr) (compressed : Bool) (buf : List Nat)
    (h : nextFrame deflate c = .err c' e) :
    readLoop deflate inflate (fuel + 1) c compressed buf = .err c' e := by
  unfold readLoop
  rw [h]

lemma readLoop_frame_notfin (deflate : List Nat → List Nat)
    (inflate : List Nat → Option (List Nat)) (fuel : Nat) (c c' : Conn) (f : Frame)
    (compressed : Bool) (buf : List Nat) (h : nextFrame deflate c = .frame c' f)
    (hfin : f.fin = false) (hnr : (f.rsv1 && compressed) = false) :
    readLoop deflate inflate (fuel + 1) c compressed buf =
      readLoop deflate inflate fuel c' (compressed || f.rsv1) (buf ++ f.payload) := by
  conv_lhs => unfold readLoop
  rw [h]
  simp [hfin, hnr]

lemma readLoop_frame_rsv1_repeat (deflate : List Nat → List Nat)
    (inflate : List Nat → Option (List Nat)) (fuel : Nat) (c c' : Conn) (f : Frame)
    (compressed : Bool) (buf : List Nat) (h : nextFrame deflate c = .frame c' f)
    (hr : (f.rsv1 && compressed) = true) :
    readLoop deflate inflate (fuel + 1) c compressed buf = .nilNil c' := by
  conv_lhs => unfold readLoop
  rw [h]
  simp [hr]

lemma nextFrame_clientFrame_close_any (deflate : List Nat → List Nat) (rsv1 : Bool)
    (p0 p1 : Nat) (rd key rest out : List Nat)
    (hkey : key.length = 4) (hlen : rd.length ≤ 123) :
    ∃ c', nextFrame deflate ⟨false, clientFrame true rsv1 OpClose key (p0 :: p1 :: rd) ++ rest, out⟩
            = .err c' .connectionClosed := by
  unfold nextFrame
  rw [readFrame_clientFrame false true rsv1 OpClose key (p0 :: p1 :: rd) rest out hkey
        (by simp; omega) (by simp [OpClose])]
  simp only [validateErrors, OpClose, OpText, OpBinary, OpPing, OpPong, readUint16BE]
  by_cases hsc : (p0 % 256 * 256 + p1 % 256) = CloseStatusNoStatusReceived
  · simp [handleClose, hsc, WriteMessage, writeFrameBytes]
    exact ⟨_, by rw [if_neg (by omega)]⟩
  · simp [handleClose, hsc, WriteMessage, writeFrameBytes]
    exact ⟨_, by rw [if_neg (by omega)]⟩


/-! ## Claim theorems -/

/-- C1: the claim says `WriteMessage` encodes the header in the shortest
legal form (length 2/4/10 with the extended length after the 126/127
marker, FIN/opcode byte intact).  The code instead calls `PutUint16` /
`PutUint64` at offset 0 of the 2-byte header: for a 126-byte payload the
wire begins `0x00 0x7E` — a 2-byte header whose FIN/opcode byte has been
overwritten by the high length byte and with no extended length bytes
after the marker — and for a payload longer than 65535 bytes `PutUint64`
panics on the 2-byte slice. -/
theorem C1_extended_length_encoding_bug :
    WriteMessage (fun x => x) ⟨false, [], []⟩ OpText (List.replicate 126 7)
        = some ⟨false, [], 0 :: 126 :: List.replicate 126 7⟩
    ∧ (0 : Nat) ≠ (0 ||| OpText) ||| bitFin := by
  constructor
  · simp [WriteMessage, writeFrameBytes, putUint16BE, List.length_replicate]
  · decide

/-- C2: the claim says a Continuation frame with opcode 0 is accepted while
a fragmented message is in progress and the fragments are reassembled.
`validate` instead reports `unknown opcode` for opcode 0, so `ReadMessage`
returns an error on a Text fragment followed by an opcode-0 continuation
fragment, instead of the payload `test`. -/
theorem C2_continuation_opcode_zero_rejected :
    ReadMessage (fun x => x) (fun x => some x)
        ⟨false, clientFrame false false OpText [5, 6, 7, 8] [116, 101]
                  ++ clientFrame true false 0 [1, 2, 3, 4] [115, 116], []⟩
      = .err ⟨false, [], []⟩ .validationFailed
    ∧ validateErrors (⟨true, false, false, false, 0, true, 2, [115, 116]⟩ : Frame)
      = ["unknown opcode"] := by
  exact ⟨by decide, by decide⟩

/-- C3 counterexample: the claim says the close echo carries the received
status code followed by the reason bytes.  For an inbound Close with code
1000 and reason `bye` the server replies `[136, 2, 3, 232]` — status code
only, no reason (`handleClose` ignores its `reason` argument). -/
theorem C3_close_reason_not_echoed :
    ReadMessage (fun x => x) (fun x => some x)
        ⟨false, clientFrame true false OpClose [0, 0, 0, 0] [3, 232, 98, 121, 101], []⟩
      = .err ⟨false, [], [136, 2, 3, 232]⟩ .connectionClosed
    ∧ ([136, 2, 3, 232] : List Nat) ≠ [136, 5, 3, 232] ++ [98, 121, 101] := by
  exact ⟨by decide, by decide⟩

/-- C3 amended: on an inbound Close frame the (compression-off) connection
sends exactly one Close frame whose body is the received status code as a
2-byte big-endian value — the received reason is never echoed — and whose
body is empty when the peer's Close frame had no body (not a code-1000
body); `ReadMessage` then surfaces the connection-closed error, which
carries no code or reason. -/
theorem C3_close_echo_code_only (deflate : List Nat → List Nat)
    (inflate : List Nat → Option (List Nat)) (key reason rest out : List Nat)
    (hi lo : Nat) (hkey : key.length = 4) (hhi : hi < 256) (hlo : lo < 256)
    (hreason : reason.length ≤ 123) (hcode : hi * 256 + lo ≠ 1005) :
    ReadMessage deflate inflate
        ⟨false, clientFrame true false OpClose key (hi :: lo :: reason) ++ rest, out⟩
      = .err ⟨false, rest, out ++ [136, 2, hi, lo]⟩ .connectionClosed
    ∧ ReadMessage deflate inflate
        ⟨false, clientFrame true false OpClose key [] ++ rest, out⟩
      = .err ⟨false, rest, out ++ [136, 0]⟩ .connectionClosed := by
  constructor
  · unfold ReadMessage
    exact readLoop_err deflate inflate _ _ _ _ false []
      (nextFrame_clientFrame_close deflate false hi lo reason key rest out hkey hreason hhi hlo hcode)
  · unfold ReadMessage
    exact readLoop_err deflate inflate _ _ _ _ false []
      (nextFrame_clientFrame_close_empty deflate false key rest out hkey)

/-- C3 witness: the amended close-echo theorem at code 1000, reason `bye`. -/
theorem C3_close_echo_code_only_witness :
    (([0, 0, 0, 0] : List Nat).length = 4) ∧ (3 : Nat) < 256 ∧ (232 : Nat) < 256
    ∧ (([98, 121, 101] : List Nat).length ≤ 123) ∧ 3 * 256 + 232 ≠ 1005
    ∧ ReadMessage (fun x => x) (fun x => some x)
        ⟨false, clientFrame true false OpClose [0, 0, 0, 0] (3 :: 232 :: [98, 121, 101]) ++ [], []⟩
      = .err ⟨false, [], [] ++ [136, 2, 3, 232]⟩ .connectionClosed :=
  ⟨rfl, by decide, by decide, by decide, by decide,
   (C3_close_echo_code_only (fun x => x) (fun x => some x) [0, 0, 0, 0] [98, 121, 101]
      [] [] 3 232 rfl (by decide) (by decide) (by decide) (by decide)).1⟩

/-- C4 counterexample: the claim says Ping/Pong/Close frames are written
uncompressed with RSV1 clear when compression is enabled.  With
compression on, a Ping frame gets RSV1 (bit 64 of the first header byte,
201 = FIN or RSV1 or opcode 9) and its payload is run through the
compressor (the empty payload becomes the stripped DEFLATE output `[0]`,
not the original `[]`). -/
theorem C4_control_frame_compressed_rsv1_set :
    WriteMessage (fun _ => [0, 0, 0, 255, 255]) ⟨true, [], []⟩ OpPing []
      = some ⟨true, [], [201, 1, 0]⟩
    ∧ (201 : Nat) &&& 64 ≠ 0
    ∧ compress (fun _ => [0, 0, 0, 255, 255]) [] ≠ [] := by
  exact ⟨by decide, by decide, by decide⟩

/-- C4 amended: when compression is enabled `WriteMessage` compresses and
sets RSV1 for every opcode, control frames included; the bit reaches the
wire whenever the compressed payload is shorter than 126 bytes (for longer
payloads the header-clobbering length bug overwrites the first byte). -/
theorem C4_compression_regardless_of_opcode (deflate : List Nat → List Nat)
    (c : Conn) (opcode : Nat) (m : List Nat)
    (hcomp : c.compression = true) (hlen : (compress deflate m).length < 126) :
    WriteMessage deflate c opcode m =
      some { c with output := c.output ++
        ((((0 ||| opcode) ||| bitFin) ||| bitRsv1)
          :: (compress deflate m).length % 256 :: compress deflate m) }
    ∧ (((0 ||| opcode) ||| bitFin) ||| bitRsv1) &&& bitRsv1 = 64 := by
  constructor
  · simp [WriteMessage, writeFrameBytes, hcomp, hlen]
  · simp only [bitRsv1]
    exact or64_and64 _

/-- C4 witness: the amended theorem at a compressing Ping with empty
payload. -/
theorem C4_compression_regardless_of_opcode_witness :
    ((⟨true, [], []⟩ : Conn).compression = true)
    ∧ ((compress (fun _ => [0, 0, 0, 255, 255]) []).length < 126)
    ∧ WriteMessage (fun _ => [0, 0, 0, 255, 255]) ⟨true, [], []⟩ OpPing [] =
        some { (⟨true, [], []⟩ : Conn) with output := ([] : List Nat) ++
          ((((0 ||| OpPing) ||| bitFin) ||| bitRsv1)
            :: (compress (fun _ => [0, 0, 0, 255, 255]) []).length % 256
            :: compress (fun _ => [0, 0, 0, 255, 255]) []) } :=
  ⟨rfl, by decide,
   (C4_compression_regardless_of_opcode (fun _ => [0, 0, 0, 255, 255])
      ⟨true, [], []⟩ OpPing [] rfl (by decide)).1⟩

/-- C5 counterexample: the claim says a wrong `Sec-WebSocket-Version`
yields status 426 with a `Sec-WebSocket-Version: 13` response header.
`checkHandshake` returns 400 (`http.StatusBadRequest`) and `handleError`
writes no such header. -/
theorem C5_version_mismatch_status_400 :
    checkHandshake ⟨"GET", [("Connection", "Upgrade"), ("Upgrade", "websocket"),
        ("Sec-WebSocket-Version", "12")]⟩
      = some ("Sec-WebSocket-Version is not set to 13: failed to upgrade to the WebSocket protocol", 400)
    ∧ (400 : Nat) ≠ 426
    ∧ ((handleError 400).headers.all (fun p => p.1 != "Sec-WebSocket-Version")) = true
    ∧ (handleError 400).status = 400 := by
  exact ⟨by decide, by decide, by decide, rfl⟩

/-- C5 amended: for every request passing the method, Connection and
Upgrade checks whose `Sec-WebSocket-Version` differs from `13`, the
handshake check fails with status 400 (not 426) and the error response
contains no `Sec-WebSocket-Version` header. -/
theorem C5_bad_version_yields_400 (r : Request)
    (h1 : r.method = "GET") (h2 : headerGet r "Connection" = "Upgrade")
    (h3 : headerGet r "Upgrade" = "websocket")
    (h4 : headerGet r "Sec-WebSocket-Version" ≠ "13") :
    checkHandshake r =
      some ("Sec-WebSocket-Version is not set to 13: failed to upgrade to the WebSocket protocol", 400)
    ∧ (handleError 400).status = 400
    ∧ ((handleError 400).headers.all (fun p => p.1 != "Sec-WebSocket-Version")) = true := by
  refine ⟨?_, rfl, by decide⟩
  simp [checkHandshake, checkForHeader, h1, h2, h3, h4]

/-- C5 witness: the amended theorem at a concrete request with version 12. -/
theorem C5_bad_version_yields_400_witness :
    ((⟨"GET", [("Connection", "Upgrade"), ("Upgrade", "websocket"),
        ("Sec-WebSocket-Version", "12")]⟩ : Request).method = "GET")
    ∧ checkHandshake ⟨"GET", [("Connection", "Upgrade"), ("Upgrade", "websocket"),
        ("Sec-WebSocket-Version", "12")]⟩ =
      some ("Sec-WebSocket-Version is not set to 13: failed to upgrade to the WebSocket protocol", 400) :=
  ⟨rfl,
   (C5_bad_version_yields_400 ⟨"GET", [("Connection", "Upgrade"), ("Upgrade", "websocket"),
      ("Sec-WebSocket-Version", "12")]⟩ rfl (by decide) (by decide) (by decide)).1⟩

set_option maxRecDepth 100000 in
/-- C6: the accept key is a pure function of the client key — base64 of
SHA-1 of the key concatenated with the RFC 6455 GUID — and on the
canonical RFC example it produces the canonical answer. -/
theorem C6_generateAcceptKey_deterministic_rfc_example :
    generateAcceptKey "dGhlIHNhbXBsZSBub25jZQ==" = "s3pPLMBiTxaQ9kYGzzhZRbK+xOo="
    ∧ ∀ key : String, generateAcceptKey key
        = base64Encode (sha1 (strBytes (key ++ "258EAFA5-E914-47DA-95CA-C5AB0DC85B11"))) :=
  ⟨by decide, fun _ => rfl⟩

/-- C7: masking is an involution: applying `applyMask` twice with the same
4-byte key gives back the payload.  (The proof does not even need the
length bound: the same key byte, or the same out-of-range default, is
XORed twice at every position.) -/
theorem C7_applyMask_involution (p k : List Nat) (hk : k.length = 4) :
    applyMask (applyMask p k) k = p :=
  applyMask_applyMask p k

/-- C7 witness: the involution at a concrete payload and key. -/
theorem C7_applyMask_involution_witness :
    (([1, 2, 3, 4] : List Nat).length = 4)
    ∧ applyMask (applyMask [0, 7, 255, 10, 99] [1, 2, 3, 4]) [1, 2, 3, 4]
        = [0, 7, 255, 10, 99] :=
  ⟨rfl, C7_applyMask_involution [0, 7, 255, 10, 99] [1, 2, 3, 4] rfl⟩

/-- C8 counterexample: the claim says the Close-branch payload accesses are
in bounds even for a 1-byte close payload.  A validated Close frame with
payload `[3]` drives `binary.BigEndian.Uint16` into its out-of-bounds
panic. -/
theorem C8_close_payload_length_one_panics :
    nextFrame (fun x => x) ⟨false, clientFrame true false OpClose [0, 0, 0, 0] [3], []⟩
      = .panicked := by decide

/-- C8 amended: for every validated inbound Close frame whose payload
length is not exactly 1, the status-code read and the reason slice stay in
bounds: the close branch completes and surfaces the connection-closed
error instead of panicking. -/
theorem C8_close_extraction_in_bounds (deflate : List Nat → List Nat)
    (key p rest out : List Nat)
    (hkey : key.length = 4) (hp : p.length ≤ 125) (hne : p.length ≠ 1) :
    ∃ c', nextFrame deflate ⟨false, clientFrame true false OpClose key p ++ rest, out⟩
            = .err c' .connectionClosed := by
  cases p with
  | nil => exact ⟨_, nextFrame_clientFrame_close_empty deflate false key rest out hkey⟩
  | cons p0 tl =>
    cases tl with
    | nil => simp at hne
    | cons p1 rd =>
      have hlen : rd.length ≤ 123 := by simp at hp; omega
      exact nextFrame_clientFrame_close_any deflate false p0 p1 rd key rest out hkey hlen

/-- C8 witness: the amended theorem at the 2-byte close payload `[3, 232]`. -/
theorem C8_close_extraction_in_bounds_witness :
    (([0, 0, 0, 0] : List Nat).length = 4) ∧ (([3, 232] : List Nat).length ≤ 125)
    ∧ (([3, 232] : List Nat).length ≠ 1)
    ∧ ∃ c', nextFrame (fun x => x)
              ⟨false, clientFrame true false OpClose [0, 0, 0, 0] [3, 232] ++ [], []⟩
            = .err c' .connectionClosed :=
  ⟨rfl, by decide, by decide,
   C8_close_extraction_in_bounds (fun x => x) [0, 0, 0, 0] [3, 232] [] [] rfl
     (by decide) (by decide)⟩

/-- C9 counterexample: the claim says a compression-off connection never
puts RSV1 on the wire.  For a 16384-byte payload the length bug writes the
high length byte 64 over the first header byte, which is exactly the RSV1
bit. -/
theorem C9_length_high_byte_sets_rsv1_bit :
    WriteMessage (fun x => x) ⟨false, [], []⟩ OpText (List.replicate 16384 7)
      = some ⟨false, [], 64 :: 0 :: List.replicate 16384 7⟩
    ∧ (64 : Nat) &&& 64 ≠ 0 := by
  constructor
  · have hl : (List.replicate 16384 7 : List Nat).length = 16384 :=
      List.length_replicate 16384 7
    generalize hm : (List.replicate 16384 7 : List Nat) = m at hl ⊢
    simp [WriteMessage, writeFrameBytes, putUint16BE, hl]
  · decide

/-- C9 amended: `newConn` leaves `compression` false (Go zero value), and
`ReadMessage`, `WriteMessage` and `Close` never change the field; on such
a connection `WriteMessage` never invokes the compressor, and for payloads
shorter than 126 bytes (where the header survives the length bug) the
first wire byte is FIN or opcode with the RSV1 bit clear. -/
theorem C9_compression_always_false_invariant
    (deflate : List Nat → List Nat) (inflate : List Nat → Option (List Nat))
    (input : List Nat) (rb wb : Nat) (c : Conn) (opcode : Nat) (m : List Nat)
    (hc : c.compression = false) (hop : opcode &&& 64 = 0) (hm : m.length < 126) :
    (newConn input rb wb).compression = false
    ∧ (ReadMessage deflate inflate c).compressionOr c.compression = c.compression
    ∧ ((WriteMessage deflate c opcode m).map Conn.compression).getD c.compression
        = c.compression
    ∧ (Conn.close c).compression = c.compression
    ∧ WriteMessage deflate c opcode m =
        some { c with output := c.output ++ (((0 ||| opcode) ||| bitFin)
                 :: m.length % 256 :: m) }
    ∧ ((0 ||| opcode) ||| bitFin) &&& bitRsv1 = 0 := by
  refine ⟨rfl, readLoop_compressionOr deflate inflate _ c false [],
          WriteMessage_compression deflate c opcode m, rfl, ?_, ?_⟩
  · simp [WriteMessage, writeFrameBytes, hc, hm]
  · simp only [bitFin, bitRsv1, Nat.zero_or]
    exact or_and64_zero opcode 128 hop (by decide)

/-- C9 witness: the invariant at a fresh connection writing a 1-byte Text
message. -/
theorem C9_compression_always_false_invariant_witness :
    ((⟨false, [], []⟩ : Conn).compression = false) ∧ ((OpText : Nat) &&& 64 = 0)
    ∧ (([97] : List Nat).length < 126)
    ∧ WriteMessage (fun x => x) ⟨false, [], []⟩ OpText [97] =
        some { (⟨false, [], []⟩ : Conn) with output := ([] : List Nat) ++
          (((0 ||| OpText) ||| bitFin) :: ([97] : List Nat).length % 256 :: [97]) } :=
  ⟨rfl, by decide, by decide,
   (C9_compression_always_false_invariant (fun x => x) (fun x => some x) [] 0 0
      ⟨false, [], []⟩ OpText [97] rfl (by decide) (by decide)).2.2.2.2.1⟩

/-- C10: when a frame with RSV1 set arrives while the in-progress message
already latched RSV1 from an earlier frame, `ReadMessage` executes
`return nil, err` with a nil `err` — a nil payload together with a nil
error, not a protocol error. -/
theorem C10_repeated_rsv1_returns_nil_nil
    (deflate : List Nat → List Nat) (inflate : List Nat → Option (List Nat))
    (comp fin2 : Bool) (op1 op2 : Nat) (k1 k2 p1 p2 rest out : List Nat)
    (hk1 : k1.length = 4) (hk2 : k2.length = 4)
    (hp1 : p1.length ≤ 125) (hp2 : p2.length ≤ 125)
    (hop1 : op1 = OpText ∨ op1 = OpBinary) (hop2 : op2 = OpText ∨ op2 = OpBinary) :
    ReadMessage deflate inflate
        ⟨comp, clientFrame false true op1 k1 p1
                 ++ (clientFrame fin2 true op2 k2 p2 ++ rest), out⟩
      = .nilNil ⟨comp, rest, out⟩ := by
  unfold ReadMessage
  rw [readLoop_frame_notfin deflate inflate _ _ _ _ false []
        (nextFrame_clientFrame_data deflate comp false true op1 k1 p1
          (clientFrame fin2 true op2 k2 p2 ++ rest) out hk1 hp1 hop1) rfl rfl]
  obtain ⟨M, hM⟩ : ∃ M, (clientFrame false true op1 k1 p1
      ++ (clientFrame fin2 true op2 k2 p2 ++ rest)).length = M + 1 :=
    ⟨(clientFrame false true op1 k1 p1
        ++ (clientFrame fin2 true op2 k2 p2 ++ rest)).length - 1,
     by simp [List.length_append, clientFrame_length]; omega⟩
  rw [hM]
  exact readLoop_frame_rsv1_repeat deflate inflate M _ _ _ true ([] ++ p1)
    (nextFrame_clientFrame_data deflate comp fin2 true op2 k2 p2 rest out hk2 hp2 hop2) rfl

/-- C10 witness: the nil-nil result at two concrete RSV1 frames. -/
theorem C10_repeated_rsv1_returns_nil_nil_witness :
    (([0, 0, 0, 0] : List Nat).length = 4) ∧ (([97] : List Nat).length ≤ 125)
    ∧ ((OpText : Nat) = OpText ∨ (OpText : Nat) = OpBinary)
    ∧ ReadMessage (fun x => x) (fun x => some x)
        ⟨false, clientFrame false true OpText [0, 0, 0, 0] [97]
                  ++ (clientFrame true true OpText [0, 0, 0, 0] [98] ++ []), []⟩
      = .nilNil ⟨false, [], []⟩ :=
  ⟨rfl, by decide, Or.inl rfl,
   C10_repeated_rsv1_returns_nil_nil (fun x => x) (fun x => some x) false true
     OpText OpText [0, 0, 0, 0] [0, 0, 0, 0] [97] [98] [] [] rfl rfl
     (by decide) (by decide) (Or.inl rfl) (Or.inl rfl)⟩

end GoWs
